import Mathlib

/-!
Shallow embedding of src/main.py (picojoker weather/joke station): the text
sanitizer, the WMO weather-code table, the four content sources with their
fetch/display methods, the WiFi connectivity task and the cooperative main
loop, together with proofs about the specified properties.
-/

/-- Python exception values that the modelled code can raise or store. -/
inductive PyErr where
  | transport (msg : String)
  | valueError (msg : String)
  | keyError (key : String)
  | indexError (msg : String)
  | typeError (msg : String)
  | attributeError (msg : String)
  | importError
  | oserror (msg : String)

/-- Python `str(e)` for stored exception values; only its presence inside the
rendered error view matters for the claims, so the text is kept simple. -/
def pyErrStr : PyErr → String
  | .transport m => m
  | .valueError m => m
  | .keyError k => k
  | .indexError m => m
  | .typeError m => m
  | .attributeError m => m
  | .importError => "ImportError"
  | .oserror m => m

/-- The ASCII apostrophe character (codepoint 39). -/
def apos : Char := Char.ofNat 39

/-- The ASCII backquote character (codepoint 96). -/
def bquote : Char := Char.ofNat 96

/-- One-character Python string holding the ASCII apostrophe. -/
def aposS : String := String.mk [apos]

/-- Python `text.replace(k, v)` for a single-character pattern `k`: every
occurrence of `k` in the text is replaced by the characters of `v`. -/
def replaceChar (k : Char) (v : List Char) : List Char → List Char
  | [] => []
  | c :: cs => (if c = k then v else [c]) ++ replaceChar k v cs

/-- The ordered replacement table of `BaseJoke._sanitize` (src/main.py lines
129-136). Every key is a single character; the backquote and the acute accent
map to the ASCII apostrophe. -/
def replacements : List (Char × String) := [
  ('–', "-"), ('—', "-"), ('…', "..."), ('‘', aposS), ('’', aposS), ('‚', aposS),
  ('“', "\""), ('„', "\""), (bquote, aposS), ('´', aposS),
  ('á', "a"), ('à', "a"), ('â', "a"), ('ä', "ae"), ('Ä', "Ae"), ('ç', "c"),
  ('é', "e"), ('è', "e"), ('ê', "e"), ('ë', "e"), ('í', "i"), ('î', "i"),
  ('ï', "i"), ('ñ', "n"), ('ó', "o"), ('ô', "o"), ('ö', "oe"), ('Ö', "Oe"),
  ('ß', "ss"), ('ú', "u"), ('ù', "u"), ('û', "u"), ('ü', "ue"), ('Ü', "Ue")]

/-- The replacement loop of `_sanitize`:
`for k, v in replacements.items(): text = text.replace(k, v)`. -/
def foldRepl (rs : List (Char × String)) (l : List Char) : List Char :=
  rs.foldl (fun t kv => replaceChar kv.1 kv.2.data t) l

/-- The character list produced by `BaseJoke._sanitize` (src/main.py lines
127-139): apply the replacement table in order, then keep only the characters
with codepoint below 128 (`"".join(i for i in text if ord(i) < 128)`). -/
def sanitizeData (text : String) : List Char :=
  (foldRepl replacements text.data).filter (fun c => decide (c.toNat < 128))

/-- `BaseJoke._sanitize` (src/main.py lines 127-139). -/
def _sanitize (text : String) : String :=
  String.mk (sanitizeData text)

theorem string_data_mk (l : List Char) : (String.mk l).data = l := rfl

theorem sanitize_eq_mk (s : String) : _sanitize s = String.mk (sanitizeData s) := rfl

theorem replaceChar_of_not_mem {k : Char} {v l : List Char} (h : k ∉ l) :
    replaceChar k v l = l := by
  induction l with
  | nil => rfl
  | cons c cs ih =>
    have hck : ¬(c = k) := fun hc => h (hc ▸ List.mem_cons_self c cs)
    simp only [replaceChar, if_neg hck, List.singleton_append]
    rw [ih (fun hm => h (List.mem_cons_of_mem _ hm))]

theorem mem_replaceChar {c k : Char} {v l : List Char} (h : c ∈ replaceChar k v l) :
    c ∈ v ∨ (c ∈ l ∧ c ≠ k) := by
  induction l with
  | nil => cases h
  | cons a as ih =>
    simp only [replaceChar] at h
    rcases List.mem_append.mp h with h1 | h2
    · by_cases hak : a = k
      · rw [if_pos hak] at h1
        exact Or.inl h1
      · rw [if_neg hak] at h1
        have hca : c = a := List.mem_singleton.mp h1
        exact Or.inr ⟨hca ▸ List.mem_cons_self a as, hca ▸ hak⟩
    · rcases ih h2 with h3 | ⟨h4, h5⟩
      · exact Or.inl h3
      · exact Or.inr ⟨List.mem_cons_of_mem _ h4, h5⟩

theorem foldRepl_cons (kv : Char × String) (rs : List (Char × String)) (l : List Char) :
    foldRepl (kv :: rs) l = foldRepl rs (replaceChar kv.1 kv.2.data l) := rfl

theorem mem_foldRepl {c : Char} : ∀ (rs : List (Char × String)) (l : List Char),
    c ∈ foldRepl rs l → (∃ kv ∈ rs, c ∈ kv.2.data) ∨ c ∈ l := by
  intro rs
  induction rs with
  | nil => intro l h; exact Or.inr h
  | cons kv rest ih =>
    intro l h
    rw [foldRepl_cons] at h
    rcases ih _ h with ⟨kv2, hkv2, hc⟩ | h2
    · exact Or.inl ⟨kv2, List.mem_cons_of_mem _ hkv2, hc⟩
    · rcases mem_replaceChar h2 with h3 | ⟨h4, _⟩
      · exact Or.inl ⟨kv, List.mem_cons_self _ _, h3⟩
      · exact Or.inr h4

theorem foldRepl_key_not_mem {k : Char} {v : String} :
    ∀ (rs : List (Char × String)) (l : List Char),
      (k, v) ∈ rs → (∀ kv ∈ rs, k ∉ kv.2.data) → k ∉ foldRepl rs l := by
  intro rs
  induction rs with
  | nil => intro l hmem _; cases hmem
  | cons kv0 rest ih =>
    intro l hmem hvals hk
    rw [foldRepl_cons] at hk
    rcases List.mem_cons.mp hmem with heq | hmem2
    · rcases mem_foldRepl _ _ hk with ⟨kv2, hkv2, hc⟩ | h2
      · exact hvals kv2 (List.mem_cons_of_mem _ hkv2) hc
      · rcases mem_replaceChar h2 with h3 | ⟨_, h5⟩
        · exact hvals kv0 (List.mem_cons_self _ _) h3
        · exact h5 (by rw [← heq])
    · exact ih _ hmem2 (fun kv h => hvals kv (List.mem_cons_of_mem _ h)) hk

theorem foldRepl_id : ∀ (rs : List (Char × String)) (l : List Char),
    (∀ kv ∈ rs, kv.1 ∉ l) → foldRepl rs l = l := by
  intro rs
  induction rs with
  | nil => intro l _; rfl
  | cons kv rest ih =>
    intro l h
    rw [foldRepl_cons, replaceChar_of_not_mem (h kv (List.mem_cons_self _ _))]
    exact ih l (fun kv2 h2 => h kv2 (List.mem_cons_of_mem _ h2))

theorem bquote_mem_replacements : (bquote, aposS) ∈ replacements := by decide

theorem bquote_not_in_values : ∀ kv ∈ replacements, bquote ∉ kv.2.data := by decide

theorem keys_high : ∀ kv ∈ replacements, 128 ≤ kv.1.toNat ∨ kv.1 = bquote := by decide

theorem sanitizeData_ascii (s : String) : ∀ c ∈ sanitizeData s, c.toNat < 128 := by
  intro c hc
  simp only [sanitizeData] at hc
  exact of_decide_eq_true (List.mem_filter.mp hc).2

theorem sanitizeData_no_bquote (s : String) : bquote ∉ sanitizeData s := by
  intro h
  simp only [sanitizeData] at h
  exact foldRepl_key_not_mem replacements s.data bquote_mem_replacements bquote_not_in_values
    (List.mem_of_mem_filter h)

theorem sanitizeData_mk_clean (l : List Char) (hk : ∀ kv ∈ replacements, kv.1 ∉ l)
    (ha : ∀ c ∈ l, c.toNat < 128) : sanitizeData (String.mk l) = l := by
  simp only [sanitizeData, string_data_mk]
  rw [foldRepl_id replacements l hk]
  exact List.filter_eq_self.mpr (fun a haa => decide_eq_true (ha a haa))

theorem sanitizeData_keys_not_mem (x : String) :
    ∀ kv ∈ replacements, kv.1 ∉ sanitizeData x := by
  intro kv hkv hmem
  rcases keys_high kv hkv with hh | hb
  · exact absurd (sanitizeData_ascii x _ hmem) (Nat.not_lt.mpr hh)
  · exact sanitizeData_no_bquote x (hb ▸ hmem)

/-- C8: for every input string, every character of the sanitizer output has a
codepoint below 128. -/
theorem sanitize_ascii (s : String) : ∀ c ∈ (_sanitize s).data, c.toNat < 128 := by
  intro c hc
  rw [sanitize_eq_mk, string_data_mk] at hc
  exact sanitizeData_ascii s c hc

/-- Witness for C8 at a concrete input. -/
theorem sanitize_ascii_witness :
    'c' ∈ (_sanitize "cafe").data ∧ 'c'.toNat < 128 :=
  ⟨by decide, sanitize_ascii "cafe" 'c' (by decide)⟩

/-- C9: the sanitizer is idempotent: sanitizing already-sanitized text
returns it unchanged. -/
theorem sanitize_idempotent (x : String) : _sanitize (_sanitize x) = _sanitize x := by
  rw [sanitize_eq_mk x, sanitize_eq_mk (String.mk (sanitizeData x)),
    sanitizeData_mk_clean (sanitizeData x) (sanitizeData_keys_not_mem x) (sanitizeData_ascii x)]

/-- WMO code table of `Weather._wmo_weather_code_string` (src/main.py lines
248-277). -/
def wmoCodes : List (Int × String) := [
  (0, "Clear"), (1, "Partly Cloudy"), (2, "Cloudy"), (3, "Overcast"),
  (45, "Fog"), (48, "Fog+"), (51, "Light Showers"), (53, "Showers"),
  (55, "Heavy Showers"), (56, "Freezing drizzle"), (57, "Freezing drizzle+"),
  (61, "Light rain"), (63, "Rain"), (65, "Heavy rain"), (66, "Freezing rain"),
  (67, "Freezing rain+"), (71, "Light snow showers"), (73, "Snow showers"),
  (75, "Heavy snow showers"), (77, "Sleet showers"), (80, "Light snow"),
  (81, "Snow"), (83, "Heavy snow"), (85, "Sleet"), (86, "Sleet+"),
  (95, "Thunderstorm"), (96, "Thunderstorm hail"), (99, "Thunderstorm hail+")]

/-- `Weather._wmo_weather_code_string` (src/main.py lines 246-278):
`codes.get(code, f"Unknown weather code (...)")`. -/
def _wmo_weather_code_string (code : Int) : String :=
  match wmoCodes.lookup code with
  | some s => s
  | none => "Unknown weather code (" ++ toString code ++ ")"

theorem lookup_eq_none_of_keys {n : Int} : ∀ (l : List (Int × String)),
    (∀ p ∈ l, p.1 ≠ n) → l.lookup n = none := by
  intro l
  induction l with
  | nil => intro _; rfl
  | cons p rest ih =>
    intro h
    obtain ⟨k, v⟩ := p
    have hp : (n == k) = false :=
      beq_eq_false_iff_ne.mpr (Ne.symm (h (k, v) (List.mem_cons_self _ _)))
    simp only [List.lookup, hp]
    exact ih (fun q hq => h q (List.mem_cons_of_mem _ hq))

/-- C10: the weather-code mapping sends 61 to "Light rain", and every code
outside the fixed table to the "Unknown weather code (N)" text. -/
theorem wmo_code_mapping :
    _wmo_weather_code_string 61 = "Light rain" ∧
    ∀ n : Int, (∀ p ∈ wmoCodes, p.1 ≠ n) →
      _wmo_weather_code_string n = "Unknown weather code (" ++ toString n ++ ")" := by
  constructor
  · rfl
  · intro n h
    unfold _wmo_weather_code_string
    rw [lookup_eq_none_of_keys wmoCodes h]

/-- Witness for C10 at the unknown code 42. -/
theorem wmo_code_mapping_witness :
    _wmo_weather_code_string 42 = "Unknown weather code (42)" := by
  have h := wmo_code_mapping.2 42 (by decide)
  rw [h]
  decide

/-- Indicator states requested from the RGB LED: `LED_COLOR_IDLE` and
`LED_COLOR_BUSY` (src/main.py lines 42-43). -/
inductive LedState where
  | idle
  | busy

/-- Device context threaded through an operation: the content-source state
plus the sequence of `led.set_rgb` calls the operation makes. -/
structure Dev (σ : Type) where
  inner : σ
  leds : List LedState

/-- `led.set_rgb(...)`: records the requested indicator state. -/
def setLed {σ : Type} (d : Dev σ) (l : LedState) : Dev σ :=
  { d with leds := d.leds ++ [l] }

/-- Python `try: body / except Exception as e: handler / finally: fin` as used
by every fetch implementation: the body either completes with a new state or
raises; `except Exception` catches any raised exception, so the statement as a
whole completes normally on both paths, and `fin` runs on every exit path. -/
def tryExceptFinally {σ : Type} (d : Dev σ) (body : Dev σ → Except PyErr (Dev σ))
    (handler : PyErr → Dev σ → Dev σ) (fin : Dev σ → Dev σ) : Except PyErr (Dev σ) :=
  match body d with
  | .ok d2 => .ok (fin d2)
  | .error e => .ok (fin (handler e d))

/-- The common shape of the four `fetch` implementations (src/main.py lines
92-101, 153-164, 183-197, 222-231): set the LED busy, run the fallible body
(network request / file read / JSON decoding, abstracted as the outcome `o`
supplied by the external collaborators), catch any exception into the error
field via `onErr`, and finally set the LED idle. -/
def fetchWrap {σ α : Type} (onOk : α → σ → σ) (onErr : PyErr → σ → σ)
    (d : Dev σ) (o : Except PyErr α) : Except PyErr (Dev σ) :=
  tryExceptFinally (setLed d LedState.busy)
    (fun d0 => match o with
      | .ok a => .ok { d0 with inner := onOk a d0.inner }
      | .error e => .error e)
    (fun e d0 => { d0 with inner := onErr e d0.inner })
    (fun d0 => setLed d0 LedState.idle)

/-- Parsed JSON documents as produced by `ujson.loads`; numbers are modelled
as integers (no claim depends on non-integer numerics); `null` is Python
None. -/
inductive Json where
  | null
  | str (s : String)
  | num (n : Int)
  | arr (xs : List Json)
  | obj (fields : List (String × Json))

/-- State of `Echo` (src/main.py lines 86-90): both fields start as None; the
fixed URL identity is omitted. `response` holds the `response.text` string
assigned by a successful fetch (`none` means the attribute was never
assigned). -/
structure EchoState where
  response : Option String
  error : Option PyErr

def echoInit : EchoState := { response := none, error := none }

/-- `Echo.fetch` (src/main.py lines 92-101): the outcome `o` is the text of
the awaited HTTP response; on success it is stored in `response`, on failure
the exception is stored in `error`. -/
def Echo.fetch (d : Dev EchoState) (o : Except PyErr String) :
    Except PyErr (Dev EchoState) :=
  fetchWrap (fun t st => { st with response := some t })
    (fun e st => { st with error := some e }) d o

/-- State of `OnlineGermanPunchlineJoke` (src/main.py lines 142-147). -/
structure OnlineJokeState where
  joke : Option String
  error : Option PyErr

def onlineJokeInit : OnlineJokeState := { joke := none, error := none }

/-- `OnlineGermanPunchlineJoke.fetch` (src/main.py lines 153-164): the outcome
`o` is the text field `json_response[0]["text"]` produced by the network
request and the JSON decoding (any transport, decode or shape failure is
`o = .error e`); on success the sanitized text is stored in `joke`. -/
def OnlineGermanPunchlineJoke.fetch (d : Dev OnlineJokeState) (o : Except PyErr String) :
    Except PyErr (Dev OnlineJokeState) :=
  fetchWrap (fun t st => { st with joke := some (_sanitize t) })
    (fun e st => { st with error := some e }) d o

/-- State of `LocalPunchlineJoke` (src/main.py lines 175-181): the payload
fields are plain strings initialized empty; the filename identity is
omitted. -/
structure LocalJokeState where
  setup : String
  punchline : String
  error : Option PyErr

def localJokeInit : LocalJokeState := { setup := "", punchline := "", error := none }

/-- `LocalPunchlineJoke.fetch` (src/main.py lines 183-197): the outcome `o` is
the pair `(joke[0], joke[1])` produced by the file read, the random choice and
the JSON decoding (any failure of those steps is `o = .error e`); both fields
are sanitized before storing. The source assigns `setup` before `punchline`;
an index failure between the two assignments is folded into the all-or-nothing
outcome here. -/
def LocalPunchlineJoke.fetch (d : Dev LocalJokeState) (o : Except PyErr (String × String)) :
    Except PyErr (Dev LocalJokeState) :=
  fetchWrap (fun p st => { st with setup := _sanitize p.1, punchline := _sanitize p.2 })
    (fun e st => { st with error := some e }) d o

/-- State of `Weather` (src/main.py lines 208-215): `weather_data` starts as
None (`none` means the attribute was never assigned; a successful fetch
assigns the parsed JSON document); the URL/config identity is omitted. -/
structure WeatherState where
  weather_data : Option Json
  error : Option PyErr

def weatherInit : WeatherState := { weather_data := none, error := none }

/-- `Weather.fetch` (src/main.py lines 222-231): the outcome `o` is the parsed
JSON of the awaited HTTP response; on success it is stored in
`weather_data`. -/
def Weather.fetch (d : Dev WeatherState) (o : Except PyErr Json) :
    Except PyErr (Dev WeatherState) :=
  fetchWrap (fun j st => { st with weather_data := some j })
    (fun e st => { st with error := some e }) d o

/-- One text argument handed to the render surface (`display.text` via
`draw_text` or `log`): either a Python string or Python None. -/
inductive TextArg where
  | str (s : String)
  | pyNone

/-- The error branch shared by every `display`: `draw_text` of
`f"Error: {self.error}"` followed by `log` of the same message
(`clear_screen` draws no text). -/
def errorView (e : PyErr) : List TextArg :=
  [.str ("Error: " ++ pyErrStr e), .str ("Error: " ++ pyErrStr e)]

/-- Python attribute access `s.text` on a `str` value: `str` has no attribute
`text`, so it raises AttributeError. (`Echo.fetch` stored `response.text`,
already a plain string, into `self.response`.) -/
def strAttrText (_s : String) : Except PyErr String :=
  .error (.attributeError "str object has no attribute text")

/-- `Echo.display` (src/main.py lines 108-114): error view if `error` is set,
else `self.response.text if self.response else "No response"`; None and the
empty string are falsy, and a nonempty stored response is a `str`, so the
`.text` access raises. -/
def Echo.display (st : EchoState) : Except PyErr (List TextArg) :=
  match st.error with
  | some e => .ok (errorView e)
  | none =>
    match st.response with
    | some s =>
      if s.isEmpty then .ok [.str "No response"]
      else
        match strAttrText s with
        | .ok t => .ok [.str t]
        | .error e => .error e
    | none => .ok [.str "No response"]

/-- `OnlineGermanPunchlineJoke.display` (src/main.py lines 166-172): error
view if `error` is set, else `draw_text(0, 0, self.joke)` — the raw attribute
value, which is None when never fetched. -/
def OnlineGermanPunchlineJoke.display (st : OnlineJokeState) : Except PyErr (List TextArg) :=
  match st.error with
  | some e => .ok (errorView e)
  | none =>
    match st.joke with
    | some j => .ok [.str j]
    | none => .ok [.pyNone]

/-- `LocalPunchlineJoke.display` (src/main.py lines 199-205): error view if
`error` is set, else the setup and punchline joined by a separator. -/
def LocalPunchlineJoke.display (st : LocalJokeState) : Except PyErr (List TextArg) :=
  match st.error with
  | some e => .ok (errorView e)
  | none => .ok [.str (st.setup ++ "\n---\n" ++ st.punchline)]

/-- Python subscript `v[k]` for a string key on a parsed JSON value;
subscripting None raises TypeError, a missing key raises KeyError. -/
def Json.getItem (v : Json) (k : String) : Except PyErr Json :=
  match v with
  | .obj fields =>
    match fields.lookup k with
    | some x => .ok x
    | none => .error (.keyError k)
  | .null => .error (.typeError "NoneType object is not subscriptable")
  | _ => .error (.typeError "object is not subscriptable")

/-- Python subscript `v[i]` for an integer index on a parsed JSON value. -/
def Json.getIndex (v : Json) (i : Nat) : Except PyErr Json :=
  match v with
  | .arr xs =>
    match xs.get? i with
    | some x => .ok x
    | none => .error (.indexError "list index out of range")
  | .null => .error (.typeError "NoneType object is not subscriptable")
  | _ => .error (.typeError "object is not subscriptable")

/-- Python `str(v)` inside an f-string, for parsed JSON values; the scalar
cases are faithful, composite reprs are abbreviated (no claim depends on
them). -/
def jsonFStr : Json → String
  | .null => "None"
  | .str s => s
  | .num n => toString n
  | .arr _ => "<list>"
  | .obj _ => "<dict>"

/-- The argument `self.weather_data["current"]["weather_code"]` handed to the
code table: an integer code uses `_wmo_weather_code_string`; any other JSON
value misses every integer key of `codes.get` and yields the default text. -/
def wmoOfJson : Json → String
  | .num n => _wmo_weather_code_string n
  | v => "Unknown weather code (" ++ jsonFStr v ++ ")"

/-- `Weather.display` (src/main.py lines 233-244): error view if `error` is
set; otherwise the five draw lines subscript `self.weather_data`, which is
None when never fetched, so the first subscript raises TypeError. The source
interleaves the draws with the subscripts; here the subscripts are evaluated
in source order and the draws listed afterwards (no claim observes a partial
render before a raise). -/
def Weather.display (st : WeatherState) : Except PyErr (List TextArg) :=
  match st.error with
  | some e => .ok (errorView e)
  | none =>
    match st.weather_data with
    | none => .error (.typeError "NoneType object is not subscriptable")
    | some d => do
      let cur1 ← d.getItem "current"
      let timeV ← cur1.getItem "time"
      let cur2 ← d.getItem "current"
      let codeV ← cur2.getItem "weather_code"
      let cur3 ← d.getItem "current"
      let tempV ← cur3.getItem "temperature_2m"
      let daily1 ← d.getItem "daily"
      let hoursA ← daily1.getItem "precipitation_hours"
      let hours0 ← hoursA.getIndex 0
      let daily2 ← d.getItem "daily"
      let probA ← daily2.getItem "precipitation_probability_max"
      let prob0 ← probA.getIndex 0
      Except.ok [TextArg.str (jsonFStr timeV),
        TextArg.str (wmoOfJson codeV),
        TextArg.str ("Temp: " ++ jsonFStr tempV ++ "°C"),
        TextArg.str ("Rain: " ++ jsonFStr hours0 ++ "mm"),
        TextArg.str ("Rain: " ++ jsonFStr prob0 ++ "%")]

/-- The device state after one completed fetch with outcome `o`. -/
def stepDev {σ α : Type} (onOk : α → σ → σ) (onErr : PyErr → σ → σ)
    (d : Dev σ) (o : Except PyErr α) : Dev σ :=
  { inner := match o with | .ok a => onOk a d.inner | .error e => onErr e d.inner,
    leds := (d.leds ++ [LedState.busy]) ++ [LedState.idle] }

theorem fetchWrap_eq {σ α : Type} (onOk : α → σ → σ) (onErr : PyErr → σ → σ)
    (d : Dev σ) (o : Except PyErr α) :
    fetchWrap onOk onErr d o = Except.ok (stepDev onOk onErr d o) := by
  cases o <;> rfl

theorem stepDev_inner_ok {σ α : Type} (onOk : α → σ → σ) (onErr : PyErr → σ → σ)
    (d : Dev σ) (a : α) :
    (stepDev onOk onErr d (Except.ok a)).inner = onOk a d.inner := rfl

theorem stepDev_inner_error {σ α : Type} (onOk : α → σ → σ) (onErr : PyErr → σ → σ)
    (d : Dev σ) (e : PyErr) :
    (stepDev onOk onErr d (Except.error e)).inner = onErr e d.inner := rfl

theorem stepDev_leds {σ α : Type} (onOk : α → σ → σ) (onErr : PyErr → σ → σ)
    (d : Dev σ) (o : Except PyErr α) :
    (stepDev onOk onErr d o).leds = d.leds ++ [LedState.busy, LedState.idle] := by
  simp [stepDev]

/-- A sequence of completed `fetch()` calls on the same object (each call of
the scheduler awaits the previous fetch to completion before the next). -/
def runFetches {σ α : Type} (f : Dev σ → Except PyErr α → Except PyErr (Dev σ)) :
    Dev σ → List (Except PyErr α) → Dev σ
  | d, [] => d
  | d, o :: os =>
    match f d o with
    | .ok d2 => runFetches f d2 os
    | .error _ => d

theorem runFetches_wrap_cons {σ α : Type} (onOk : α → σ → σ) (onErr : PyErr → σ → σ)
    (d : Dev σ) (o : Except PyErr α) (os : List (Except PyErr α)) :
    runFetches (fetchWrap onOk onErr) d (o :: os) =
      runFetches (fetchWrap onOk onErr) (stepDev onOk onErr d o) os := by
  simp only [runFetches, fetchWrap_eq]

theorem runFetches_last_sets {σ α : Type} (onOk : α → σ → σ) (onErr : PyErr → σ → σ)
    (P Q : σ → Prop) (hOk : ∀ a st, P (onOk a st)) (hErr : ∀ e st, Q (onErr e st)) :
    ∀ (os : List (Except PyErr α)) (d : Dev σ), os ≠ [] →
      P ((runFetches (fetchWrap onOk onErr) d os).inner) ∨
      Q ((runFetches (fetchWrap onOk onErr) d os).inner) := by
  intro os
  induction os with
  | nil => intro d h; exact absurd rfl h
  | cons o os ih =>
    intro d _
    rw [runFetches_wrap_cons]
    cases os with
    | nil =>
      cases o with
      | ok a => exact Or.inl (hOk a d.inner)
      | error e => exact Or.inr (hErr e d.inner)
    | cons o2 os2 => exact ih _ (List.cons_ne_nil _ _)

theorem runFetches_error_iff {σ α : Type} (onOk : α → σ → σ) (onErr : PyErr → σ → σ)
    (getE : σ → Option PyErr)
    (hOk : ∀ a st, getE (onOk a st) = getE st) (hErr : ∀ e st, getE (onErr e st) = some e) :
    ∀ (os : List (Except PyErr α)) (d : Dev σ),
      (getE ((runFetches (fetchWrap onOk onErr) d os).inner)).isSome = true ↔
        ((getE d.inner).isSome = true ∨ ∃ e, Except.error e ∈ os) := by
  intro os
  induction os with
  | nil =>
    intro d
    simp [runFetches]
  | cons o os ih =>
    intro d
    rw [runFetches_wrap_cons, ih]
    cases o with
    | ok a =>
      rw [stepDev_inner_ok, hOk]
      constructor
      · rintro (h | h)
        · exact Or.inl h
        · exact Or.inr (by rcases h with ⟨e, he⟩; exact ⟨e, List.mem_cons_of_mem _ he⟩)
      · rintro (h | ⟨e, he⟩)
        · exact Or.inl h
        · rcases List.mem_cons.mp he with h2 | h2
          · cases h2
          · exact Or.inr ⟨e, h2⟩
    | error e0 =>
      constructor
      · intro _
        exact Or.inr ⟨e0, List.mem_cons_self _ _⟩
      · intro _
        left
        rw [stepDev_inner_error, hErr]
        rfl

theorem echoFetch_wrap : Echo.fetch =
    fetchWrap (fun t st => { st with response := some t })
      (fun e st => { st with error := some e }) := rfl

theorem onlineFetch_wrap : OnlineGermanPunchlineJoke.fetch =
    fetchWrap (fun t st => { st with joke := some (_sanitize t) })
      (fun e st => { st with error := some e }) := rfl

theorem localFetch_wrap : LocalPunchlineJoke.fetch =
    fetchWrap (fun p st => { st with setup := _sanitize p.1, punchline := _sanitize p.2 })
      (fun e st => { st with error := some e }) := rfl

theorem weatherFetch_wrap : Weather.fetch =
    fetchWrap (fun j st => { st with weather_data := some j })
      (fun e st => { st with error := some e }) := rfl

/-- C5: for every content-source variant and every failure of the fetch body,
`fetch` completes normally (never raises to its caller) and stores the
exception in that source's error field. -/
theorem fetch_never_raises :
    (∀ (d : Dev EchoState) (o : Except PyErr String), ∃ d2,
      Echo.fetch d o = Except.ok d2 ∧ ∀ e, o = Except.error e → d2.inner.error = some e) ∧
    (∀ (d : Dev OnlineJokeState) (o : Except PyErr String), ∃ d2,
      OnlineGermanPunchlineJoke.fetch d o = Except.ok d2 ∧
        ∀ e, o = Except.error e → d2.inner.error = some e) ∧
    (∀ (d : Dev LocalJokeState) (o : Except PyErr (String × String)), ∃ d2,
      LocalPunchlineJoke.fetch d o = Except.ok d2 ∧
        ∀ e, o = Except.error e → d2.inner.error = some e) ∧
    (∀ (d : Dev WeatherState) (o : Except PyErr Json), ∃ d2,
      Weather.fetch d o = Except.ok d2 ∧ ∀ e, o = Except.error e → d2.inner.error = some e) := by
  refine ⟨?_, ?_, ?_, ?_⟩ <;>
  · intro d o
    refine ⟨_, fetchWrap_eq _ _ d o, ?_⟩
    intro e he
    subst he
    rfl

/-- Witness for C5: a concrete failing fetch on the Echo source completes
normally with the error captured. -/
theorem fetch_never_raises_witness :
    ∃ d2, Echo.fetch (Dev.mk echoInit []) (Except.error (PyErr.transport "timeout")) =
        Except.ok d2 ∧ d2.inner.error = some (PyErr.transport "timeout") := by
  obtain ⟨d2, h1, h2⟩ :=
    fetch_never_raises.1 (Dev.mk echoInit []) (Except.error (PyErr.transport "timeout"))
  exact ⟨d2, h1, h2 _ rfl⟩

/-- C1 counterexample: on OnlineGermanPunchlineJoke, a successful fetch
followed by a failed fetch leaves BOTH the payload and the error set — the
source never clears the old payload/error state at the start of a fetch, so
"exactly one of payload/error is set" is false. -/
theorem fetch_state_both_set :
    ((runFetches OnlineGermanPunchlineJoke.fetch (Dev.mk onlineJokeInit [])
        [Except.ok "Warum", Except.error (PyErr.valueError "bad json")]).inner.joke.isSome
      = true) ∧
    ((runFetches OnlineGermanPunchlineJoke.fetch (Dev.mk onlineJokeInit [])
        [Except.ok "Warum", Except.error (PyErr.valueError "bad json")]).inner.error.isSome
      = true) := by
  constructor <;> rfl

/-- C1 amended: after any completed fetch at least one of payload-is-set /
error-is-set holds for the variants whose payload starts unassigned, and the
error field is set exactly when some fetch so far has failed (shown for
LocalPunchlineJoke, whose payload lives in plain strings, so payload-is-set is
not a state predicate); both fields can be set at once (see the
counterexample) because fetch never clears old state. -/
theorem fetch_state_at_least_one :
    (∀ (os : List (Except PyErr String)) (d : Dev EchoState), os ≠ [] →
      (runFetches Echo.fetch d os).inner.response.isSome = true ∨
      (runFetches Echo.fetch d os).inner.error.isSome = true) ∧
    (∀ (os : List (Except PyErr String)) (d : Dev OnlineJokeState), os ≠ [] →
      (runFetches OnlineGermanPunchlineJoke.fetch d os).inner.joke.isSome = true ∨
      (runFetches OnlineGermanPunchlineJoke.fetch d os).inner.error.isSome = true) ∧
    (∀ (os : List (Except PyErr Json)) (d : Dev WeatherState), os ≠ [] →
      (runFetches Weather.fetch d os).inner.weather_data.isSome = true ∨
      (runFetches Weather.fetch d os).inner.error.isSome = true) ∧
    (∀ (os : List (Except PyErr (String × String))),
      (runFetches LocalPunchlineJoke.fetch (Dev.mk localJokeInit []) os).inner.error.isSome
          = true ↔
        ∃ e, Except.error e ∈ os) := by
  refine ⟨?_, ?_, ?_, ?_⟩
  · intro os d h
    rw [echoFetch_wrap]
    refine runFetches_last_sets _ _ (fun st => st.response.isSome = true)
      (fun st => st.error.isSome = true) ?_ ?_ os d h
    · intro a st; rfl
    · intro e st; rfl
  · intro os d h
    rw [onlineFetch_wrap]
    refine runFetches_last_sets _ _ (fun st => st.joke.isSome = true)
      (fun st => st.error.isSome = true) ?_ ?_ os d h
    · intro a st; rfl
    · intro e st; rfl
  · intro os d h
    rw [weatherFetch_wrap]
    refine runFetches_last_sets _ _ (fun st => st.weather_data.isSome = true)
      (fun st => st.error.isSome = true) ?_ ?_ os d h
    · intro a st; rfl
    · intro e st; rfl
  · intro os
    rw [localFetch_wrap]
    have h := runFetches_error_iff
      (fun p st => { st with setup := _sanitize p.1, punchline := _sanitize p.2 })
      (fun e st => { st with error := some e }) (fun st => st.error)
      (fun a st => rfl) (fun e st => rfl) os (Dev.mk localJokeInit [])
    simpa [localJokeInit] using h

/-- Witness for C1 amended at concrete inputs. -/
theorem fetch_state_at_least_one_witness :
    ((runFetches Echo.fetch (Dev.mk echoInit []) [Except.ok "hi"]).inner.response.isSome = true ∨
     (runFetches Echo.fetch (Dev.mk echoInit []) [Except.ok "hi"]).inner.error.isSome = true) ∧
    ((runFetches LocalPunchlineJoke.fetch (Dev.mk localJokeInit [])
        [Except.error (PyErr.oserror "missing file")]).inner.error.isSome = true ↔
      ∃ e, Except.error e ∈
        ([Except.error (PyErr.oserror "missing file")] : List (Except PyErr (String × String)))) :=
  ⟨fetch_state_at_least_one.1 [Except.ok "hi"] (Dev.mk echoInit []) (List.cons_ne_nil _ _),
   fetch_state_at_least_one.2.2.2 [Except.error (PyErr.oserror "missing file")]⟩

/-- C3 (code bug): after a successful Echo fetch stored a nonempty body,
`display` raises AttributeError, because `fetch` stored `response.text` (a
`str`) and `display` evaluates `self.response.text` on it. -/
theorem echo_display_raises :
    Echo.display { response := some "hello", error := none } =
      Except.error (PyErr.attributeError "str object has no attribute text") := rfl

/-- C4 counterexample: `Weather.display` in the never-fetched state (no error
set) subscripts None and raises TypeError instead of rendering a "no data yet"
placeholder. -/
theorem weather_display_never_fetched_raises :
    Weather.display { weather_data := none, error := none } =
      Except.error (PyErr.typeError "NoneType object is not subscriptable") := rfl

/-- C4 amended: every variant checks `error` first and, whenever it is set,
renders the error view and completes; with no error set the payload is
rendered directly and there is no general "no data yet" placeholder: only Echo
has a no-response fallback, LocalPunchlineJoke always completes (rendering its
possibly-empty strings), OnlineGermanPunchlineJoke draws the raw joke value
(None when never fetched), and Weather raises in the never-fetched state. -/
theorem display_error_first :
    (∀ (st : EchoState) (e : PyErr), st.error = some e →
      Echo.display st = Except.ok (errorView e)) ∧
    (∀ (st : OnlineJokeState) (e : PyErr), st.error = some e →
      OnlineGermanPunchlineJoke.display st = Except.ok (errorView e)) ∧
    (∀ (st : LocalJokeState) (e : PyErr), st.error = some e →
      LocalPunchlineJoke.display st = Except.ok (errorView e)) ∧
    (∀ (st : WeatherState) (e : PyErr), st.error = some e →
      Weather.display st = Except.ok (errorView e)) ∧
    (∀ st : LocalJokeState, ∃ l, LocalPunchlineJoke.display st = Except.ok l) ∧
    (∀ (st : OnlineJokeState) (j : String), st.error = none → st.joke = some j →
      OnlineGermanPunchlineJoke.display st = Except.ok [TextArg.str j]) := by
  refine ⟨?_, ?_, ?_, ?_, ?_, ?_⟩
  · intro st e h
    simp only [Echo.display, h]
  · intro st e h
    simp only [OnlineGermanPunchlineJoke.display, h]
  · intro st e h
    simp only [LocalPunchlineJoke.display, h]
  · intro st e h
    simp only [Weather.display, h]
  · intro st
    cases h : st.error with
    | some e => exact ⟨errorView e, by simp only [LocalPunchlineJoke.display, h]⟩
    | none =>
      exact ⟨[TextArg.str (st.setup ++ "\n---\n" ++ st.punchline)],
        by simp only [LocalPunchlineJoke.display, h]⟩
  · intro st j h1 h2
    simp only [OnlineGermanPunchlineJoke.display, h1, h2]

/-- Witness for C4 amended at concrete states. -/
theorem display_error_first_witness :
    Echo.display { response := none, error := some (PyErr.transport "t") } =
        Except.ok (errorView (PyErr.transport "t")) ∧
    Weather.display { weather_data := none, error := some (PyErr.transport "t") } =
        Except.ok (errorView (PyErr.transport "t")) ∧
    OnlineGermanPunchlineJoke.display { joke := some "ok", error := none } =
        Except.ok [TextArg.str "ok"] :=
  ⟨display_error_first.1 _ _ rfl, display_error_first.2.2.2.1 _ _ rfl,
   display_error_first.2.2.2.2.2 _ "ok" rfl rfl⟩

/-- How the `connect_wifi` coroutine body ended. -/
inductive WifiOutcome where
  | raisedImportError
  | connected
  | stillRunning

/-- Observable result of running the `connect_wifi` task body: the log lines,
the LED calls, and how the body ended. -/
structure WifiRun where
  logs : List String
  leds : List LedState
  outcome : WifiOutcome

/-- `connect_wifi` (src/main.py lines 281-302): log, set the LED busy, import
the credentials — when `config_secrets` is absent this logs a diagnostic and
raises ImportError, with the LED still busy since there is no finally block —
otherwise associate and poll `station.isconnected()` once per second until it
reports true (`polls` lists the observed poll results; exhausting them without
a true means the wait loop is still running), then log and set the LED idle.
The credential values interpolated into the log texts are omitted. -/
def connect_wifi (secretsPresent : Bool) (polls : List Bool) : WifiRun :=
  let logs0 := ["Reading secrets"]
  let leds0 := [LedState.busy]
  if secretsPresent then
    let logs1 := logs0 ++ ["Connecting to WiFi"]
    if polls.any id then
      { logs := logs1 ++ ["Connected to WiFi", "ifconfig"],
        leds := leds0 ++ [LedState.idle], outcome := .connected }
    else
      { logs := logs1, leds := leds0, outcome := .stillRunning }
  else
    { logs := logs0 ++
        ["Error: Please provide your WiFi connection details in config_secrets.py"],
      leds := leds0, outcome := .raisedImportError }

/-- MicroPython uasyncio semantics for the detached `wifi_task`
(`uasyncio.get_event_loop().create_task(connect_wifi())`, src/main.py line
314): a task that finished — normally, or because an uncaught exception ended
it — reports `done()`; the exception of a task that is never awaited is routed
to the event loop's default exception handler and does not stop the loop or
the other tasks. -/
def wifiTaskDone (r : WifiRun) : Bool :=
  match r.outcome with
  | .stillRunning => false
  | .connected => true
  | .raisedImportError => true

/-- The inputs one main-loop iteration observes: the four button reads and
whether `wifi_task.done()` reports true during that iteration. -/
structure LoopEnv where
  bY : Bool
  bX : Bool
  bA : Bool
  bB : Bool
  wifiDone : Bool

/-- Which content source one loop iteration dispatches. -/
inductive Dispatch where
  | localJoke
  | remoteJoke
  | weather
  | echo
  | idle

/-- The dispatch decision of one iteration of `main` (src/main.py lines
318-329): button Y always dispatches the local joke; X, A and B dispatch
their network sources only when `network_connected` is set; the first match
wins and at most one source is dispatched per iteration. -/
def loopDispatch (e : LoopEnv) (nc : Bool) : Dispatch :=
  if e.bY then .localJoke
  else if e.bX && nc then .remoteJoke
  else if e.bA && nc then .weather
  else if e.bB && nc then .echo
  else .idle

/-- The latch update at the end of one iteration (src/main.py lines 331-332):
`if not network_connected and wifi_task.done(): network_connected = True`. -/
def latchStep (nc : Bool) (wifiDone : Bool) : Bool :=
  nc || wifiDone

/-- The `network_connected` flag at the start of iteration `i`, given the
per-iteration environment; it starts false (src/main.py line 315). -/
def ncAt (envs : Nat → LoopEnv) : Nat → Bool
  | 0 => false
  | i + 1 => latchStep (ncAt envs i) (envs i).wifiDone

/-- What iteration `i` dispatches. -/
def dispatchAt (envs : Nat → LoopEnv) (i : Nat) : Dispatch :=
  loopDispatch (envs i) (ncAt envs i)

/-- Whether a dispatch target needs the network. -/
def Dispatch.isNetwork : Dispatch → Bool
  | .remoteJoke => true
  | .weather => true
  | .echo => true
  | .localJoke => false
  | .idle => false

/-- C7: the network-dependent triggers dispatch nothing while the latch is
unset; the latch is set only after the wifi task was observed done and is set
by the iteration after that observation; it is one-way — once set it stays set
for every later iteration; and with credentials present the wifi task ends
connected exactly when some `isconnected()` poll reported true. -/
theorem network_latch (envs : Nat → LoopEnv) :
    (∀ i, (dispatchAt envs i).isNetwork = true → ncAt envs i = true) ∧
    (∀ i, ncAt envs i = true → ∃ j, j < i ∧ (envs j).wifiDone = true) ∧
    (∀ i, (envs i).wifiDone = true → ncAt envs (i + 1) = true) ∧
    (∀ i j, i ≤ j → ncAt envs i = true → ncAt envs j = true) ∧
    (∀ polls : List Bool,
      ((connect_wifi true polls).outcome = WifiOutcome.connected) ↔ polls.any id = true) := by
  refine ⟨?_, ?_, ?_, ?_, ?_⟩
  · intro i h
    by_contra hnc
    have hnc2 : ncAt envs i = false := by
      cases hx : ncAt envs i
      · rfl
      · exact absurd hx hnc
    unfold dispatchAt loopDispatch at h
    rw [hnc2] at h
    cases hY : (envs i).bY <;> simp [hY, Dispatch.isNetwork] at h
  · intro i
    induction i with
    | zero => intro h; cases h
    | succ n ih =>
      intro h
      simp only [ncAt, latchStep, Bool.or_eq_true] at h
      rcases h with h1 | h2
      · obtain ⟨j, hj, hw⟩ := ih h1
        exact ⟨j, Nat.lt_succ_of_lt hj, hw⟩
      · exact ⟨n, Nat.lt_succ_self n, h2⟩
  · intro i h
    show latchStep (ncAt envs i) (envs i).wifiDone = true
    rw [h]
    simp [latchStep]
  · intro i j
    induction j with
    | zero =>
      intro hij hi
      have h0 : i = 0 := Nat.le_zero.mp hij
      rw [← h0]
      exact hi
    | succ n ih =>
      intro hij hi
      rcases Nat.eq_or_lt_of_le hij with heq | hlt
      · rw [← heq]
        exact hi
      · have hn : ncAt envs n = true := ih (Nat.le_of_lt_succ hlt) hi
        show latchStep (ncAt envs n) (envs n).wifiDone = true
        rw [hn]
        rfl
  · intro polls
    cases hp : polls.any id <;> simp [connect_wifi, hp]

def envs0 : Nat → LoopEnv := fun _ =>
  { bY := false, bX := true, bA := false, bB := false, wifiDone := true }

/-- Witness for C7 at a concrete environment where the wifi task is done from
the first iteration and button X is held. -/
theorem network_latch_witness :
    ncAt envs0 1 = true ∧
    (∃ j, j < 1 ∧ (envs0 j).wifiDone = true) ∧
    ncAt envs0 1 = true ∧
    ncAt envs0 2 = true ∧
    (((connect_wifi true [true]).outcome = WifiOutcome.connected) ↔ [true].any id = true) :=
  ⟨(network_latch envs0).1 1 (by decide),
   (network_latch envs0).2.1 1 (by decide),
   (network_latch envs0).2.2.1 0 (by decide),
   (network_latch envs0).2.2.2.1 1 2 (by decide) (by decide),
   (network_latch envs0).2.2.2.2 [true]⟩

def envsC2 : Nat → LoopEnv := fun _ =>
  { bY := false, bX := false, bA := false, bB := false,
    wifiDone := wifiTaskDone (connect_wifi false []) }

/-- C2 (code bug): with the secrets provider absent, `connect_wifi` logs the
diagnostic and raises ImportError — but it runs as a detached uasyncio task,
so the event loop and the main loop keep running, the failed task reports
done, and the `network_connected` latch IS set on the next iteration, instead
of the process halting at startup. -/
theorem missing_secrets_does_not_halt :
    (connect_wifi false []).outcome = WifiOutcome.raisedImportError ∧
    "Error: Please provide your WiFi connection details in config_secrets.py"
        ∈ (connect_wifi false []).logs ∧
    wifiTaskDone (connect_wifi false []) = true ∧
    ncAt envsC2 1 = true :=
  ⟨rfl, by decide, rfl, rfl⟩

/-- C6 counterexample: with the secrets provider absent, the connectivity task
exits (by raising ImportError) with the indicator still Busy — its Idle
restore runs only on the success path, so Busy/Idle is not paired on every
exit path. -/
theorem connect_wifi_leaves_busy :
    (connect_wifi false []).leds = [LedState.busy] ∧
    (connect_wifi false []).outcome = WifiOutcome.raisedImportError :=
  ⟨rfl, rfl⟩

/-- C6 amended: every content-source fetch sets Busy immediately before its
body and restores Idle via its finally block on every exit path — success or
failure — appending exactly one Busy/Idle pair per fetch; the connectivity
task sets Busy at start but restores Idle only on its success exit path (on
the missing-credentials exit it raises with the indicator still Busy, and
while association never succeeds the indicator stays Busy). -/
theorem busy_idle_pairing :
    (∀ (d : Dev EchoState) (o : Except PyErr String), ∃ d2,
      Echo.fetch d o = Except.ok d2 ∧ d2.leds = d.leds ++ [LedState.busy, LedState.idle]) ∧
    (∀ (d : Dev OnlineJokeState) (o : Except PyErr String), ∃ d2,
      OnlineGermanPunchlineJoke.fetch d o = Except.ok d2 ∧
        d2.leds = d.leds ++ [LedState.busy, LedState.idle]) ∧
    (∀ (d : Dev LocalJokeState) (o : Except PyErr (String × String)), ∃ d2,
      LocalPunchlineJoke.fetch d o = Except.ok d2 ∧
        d2.leds = d.leds ++ [LedState.busy, LedState.idle]) ∧
    (∀ (d : Dev WeatherState) (o : Except PyErr Json), ∃ d2,
      Weather.fetch d o = Except.ok d2 ∧ d2.leds = d.leds ++ [LedState.busy, LedState.idle]) ∧
    (∀ polls : List Bool,
      (connect_wifi true polls).leds =
        if polls.any id = true then [LedState.busy, LedState.idle] else [LedState.busy]) := by
  refine ⟨?_, ?_, ?_, ?_, ?_⟩
  · intro d o
    exact ⟨stepDev _ _ d o, fetchWrap_eq _ _ d o, stepDev_leds _ _ d o⟩
  · intro d o
    exact ⟨stepDev _ _ d o, fetchWrap_eq _ _ d o, stepDev_leds _ _ d o⟩
  · intro d o
    exact ⟨stepDev _ _ d o, fetchWrap_eq _ _ d o, stepDev_leds _ _ d o⟩
  · intro d o
    exact ⟨stepDev _ _ d o, fetchWrap_eq _ _ d o, stepDev_leds _ _ d o⟩
  · intro polls
    cases hp : polls.any id <;> simp [connect_wifi, hp]
